import Mathlib

/-!
Verification of the simulation core of `space.py` ("Cosmic Calculator:
Mission to Moon").  The game's pure logic is embedded shallowly: Python
floats are modelled as exact rationals (`ℚ`), `pygame.Rect` integer
coordinates as `ℤ`, the entity lists as Lean lists, and the per-frame
loop over the `PLAYING` state as explicit state-passing functions.
Randomness (cloud operator/operand picks, power-up rolls, the
clock-driven sine bobbing of clouds) is supplied through explicit
oracle arguments.
-/

-- CONFIGURATION (space.py lines 10-31)

def WIDTH : ℤ := 1000

def HEIGHT : ℤ := 700

def PLAYER_SPEED : ℤ := 9

def BASE_SCROLL_SPEED : ℚ := 5

def BASE_CLOUD_FREQ : ℕ := 160

def POWERUP_FREQUENCY : ℕ := 600

def TARGET_NUMBER : ℕ := 50

-- MODELS & ENUMS (space.py lines 35-52)

inductive GameState where
  | PLAYING
  | TRANSITION_TO_LANDING
  | LANDING_SCENE
  | GAME_OVER
deriving DecidableEq

inductive Operation where
  | ADD
  | SUBTRACT
  | MULTIPLY
  | DIVIDE
deriving DecidableEq

inductive PowerUpType where
  | SLOW_MOTION
  | ROUND_NUM
  | GHOST
  | INVERT_CONTROLS
  | RAPID_FIRE
deriving DecidableEq

-- ARITHMETIC ENGINE: Player.calculate (space.py lines 151-165)

/-- Python's built-in `round`: round to the nearest integer, ties to the
even neighbour (banker's rounding). -/
def pyRound (q : ℚ) : ℤ :=
  if q - ⌊q⌋ < 1/2 then ⌊q⌋
  else if 1/2 < q - ⌊q⌋ then ⌊q⌋ + 1
  else if ⌊q⌋ % 2 = 0 then ⌊q⌋ else ⌊q⌋ + 1

/-- The raw result `res` of `Player.calculate` before clamping
(space.py lines 153-159, the arithmetic on the float `res`). -/
def rawResult (score : ℕ) (op : Operation) (val : ℤ) : ℚ :=
  match op with
  | Operation.ADD => (score : ℚ) + (val : ℚ)
  | Operation.SUBTRACT => (score : ℚ) - (val : ℚ)
  | Operation.MULTIPLY => (score : ℚ) * (val : ℚ)
  | Operation.DIVIDE => (score : ℚ) / (val : ℚ)

/-- The value of `res` after the `if res < 0: res = 0` clamp
(space.py line 161). -/
def clampedResult (score : ℕ) (op : Operation) (val : ℤ) : ℚ :=
  if rawResult score op val < 0 then 0 else rawResult score op val

/-- `Player.calculate(op, val)` (space.py lines 151-165): returns the new
value of `self.score` together with the decimal-penalty flag.  Division
by zero returns early with the score unchanged and no penalty (line 158).
The penalty `res % 1 != 0` holds iff the clamped result is not an
integer, i.e. iff its reduced denominator is not 1. -/
def calculate (score : ℕ) (op : Operation) (val : ℤ) : ℕ × Bool :=
  if op = Operation.DIVIDE ∧ val = 0 then (score, false)
  else ((pyRound (clampedResult score op val)).toNat,
        decide ((clampedResult score op val).den ≠ 1))

-- Spec-side formulas for the refinement claim C1 (spec section 4.1):
-- "ADD: score+operand. SUBTRACT: score-operand. MULTIPLY: score*operand.
--  DIVIDE ... After computing the raw result, clamp to 0 if negative."

/-- Raw result as worded by the spec, section 4.1. -/
def specRawResult (score : ℕ) (op : Operation) (val : ℤ) : ℚ :=
  match op with
  | Operation.ADD => (score : ℚ) + (val : ℚ)
  | Operation.SUBTRACT => (score : ℚ) - (val : ℚ)
  | Operation.MULTIPLY => (score : ℚ) * (val : ℚ)
  | Operation.DIVIDE => (score : ℚ) / (val : ℚ)

/-- The spec's clamp: "clamp to 0 if negative" (spec section 4.1). -/
def specClamped (score : ℕ) (op : Operation) (val : ℤ) : ℚ :=
  max (specRawResult score op val) 0

-- RECTS AND ENTITIES

/-- `pygame.Rect`: integer position and size. -/
structure Rect where
  x : ℤ
  y : ℤ
  w : ℤ
  h : ℤ

/-- The right edge `rect.right` of a pygame rect. -/
def Rect.right (r : Rect) : ℤ := r.x + r.w

/-- `pygame.Rect.colliderect`: true iff the rectangles overlap with
positive area (touching edges do not collide). -/
def colliderect (a b : Rect) : Bool :=
  decide (a.x < b.x + b.w) && decide (a.y < b.y + b.h) &&
  decide (a.x + a.w > b.x) && decide (a.y + a.h > b.y)

/-- Assigning a Python float to a `pygame.Rect` integer attribute (and
Python's `int()`) truncates toward zero. -/
def pyIntTrunc (q : ℚ) : ℤ := q.num / (q.den : ℤ)

/-- A math cloud (space.py lines 98-115).  The presentation-only fields
(`circles`) and the random bob parameters (`float_offset`, `float_speed`,
`amplitude`) are omitted: the clock-driven sine wave they feed is
supplied per frame as an explicit `wave` oracle argument to `move`. -/
structure Cloud where
  rect : Rect
  op : Operation
  val : ℤ
  original_y : ℚ

/-- `Cloud.move` (space.py lines 117-129): horizontal scroll by the
effective speed, vertical position re-derived from the lane base plus
the sine wave (here the oracle value `wave`). -/
def Cloud.move (c : Cloud) (scroll_speed : ℚ) (wave : ℚ) : Cloud :=
  { c with rect := { c.rect with
      x := pyIntTrunc ((c.rect.x : ℚ) - scroll_speed),
      y := pyIntTrunc (c.original_y + wave) } }

/-- A power-up (space.py lines 61-77).  The color field is
presentation-only and omitted. -/
structure PowerUp where
  rect : Rect
  type : PowerUpType
  angle : ℤ
  hue : ℤ

/-- `PowerUp.move` (space.py lines 74-77). -/
def PowerUp.move (p : PowerUp) (speed : ℚ) : PowerUp :=
  { p with rect := { p.rect with x := pyIntTrunc ((p.rect.x : ℚ) - speed) },
           angle := p.angle + 5,
           hue := (p.hue + 5) % 360 }

-- SPAWNER (space.py lines 240-270)

/-- `SpaceMathGame.spawn_cloud_wall` (space.py lines 240-251): appends a
wall of exactly 3 clouds, one per vertical lane (`HEIGHT // 3` bands).
The random operator/operand choice per lane (lines 243-249: uniform over
ADD/SUBTRACT/MULTIPLY plus DIVIDE once score > 10, operand 1-9 or 2-4
for MULTIPLY) is supplied by the `picks` oracle.  `cloudAtLane` is one
iteration of the loop body (lines 246-251). -/
def cloudAtLane (picks : Fin 3 → Operation × ℤ) (x_offset : ℤ) (i : Fin 3) : Cloud :=
  let wall_x := WIDTH + 100 + x_offset
  let lane_height := HEIGHT / 3
  let y_pos := (i : ℤ) * lane_height + lane_height / 2 - 60
  { rect := { x := wall_x, y := y_pos, w := 180, h := 120 },
    op := (picks i).1,
    val := (picks i).2,
    original_y := (y_pos : ℚ) }

/-- The `for i in range(3)` loop of `spawn_cloud_wall`, unrolled. -/
def spawn_cloud_wall (picks : Fin 3 → Operation × ℤ) (x_offset : ℤ) : List Cloud :=
  [cloudAtLane picks x_offset 0, cloudAtLane picks x_offset 1, cloudAtLane picks x_offset 2]

/-- The weighted power-up type roll of `SpaceMathGame.spawn_powerup`
(space.py lines 253-267), with `roll = random.random()` as an oracle. -/
def spawn_powerup_type (speed : ℚ) (roll : ℚ) : PowerUpType :=
  if speed > BASE_SCROLL_SPEED * (3/2) then
    if roll < 1/2 then PowerUpType.ROUND_NUM
    else if roll < 7/10 then PowerUpType.SLOW_MOTION
    else if roll < 17/20 then PowerUpType.GHOST
    else PowerUpType.INVERT_CONTROLS
  else
    if roll < 1/4 then PowerUpType.SLOW_MOTION
    else if roll < 1/2 then PowerUpType.ROUND_NUM
    else if roll < 7/10 then PowerUpType.GHOST
    else if roll < 9/10 then PowerUpType.INVERT_CONTROLS
    else PowerUpType.RAPID_FIRE

/-- `SpaceMathGame.spawn_powerup` (space.py lines 253-270); the random
vertical position is the oracle `y`. -/
def spawn_powerup (speed : ℚ) (roll : ℚ) (y : ℤ) : PowerUp :=
  { rect := { x := WIDTH + 50, y := y, w := 40, h := 40 },
    type := spawn_powerup_type speed roll,
    angle := 0,
    hue := 0 }

-- EFFECT TIMERS AND SPEEDS (space.py lines 393-418, 425-434)

/-- The effect-timer bank plus the difficulty speed, i.e. the session
fields a power-up pickup can mutate (space.py lines 425-434). -/
structure Effects where
  timer_slow_motion : ℕ
  timer_ghost_mode : ℕ
  timer_inverted : ℕ
  timer_rapid_fire : ℕ
  current_difficulty_speed : ℚ

/-- Effect of collecting a power-up (space.py lines 425-434): SLOW_MOTION
sets its timer to 600, GHOST to 300, INVERT_CONTROLS to 300, RAPID_FIRE
to 300; ROUND_NUM instantly resets the difficulty speed to base. -/
def applyPowerUpEffect (t : PowerUpType) (e : Effects) : Effects :=
  match t with
  | PowerUpType.SLOW_MOTION => { e with timer_slow_motion := 600 }
  | PowerUpType.GHOST => { e with timer_ghost_mode := 300 }
  | PowerUpType.ROUND_NUM => { e with current_difficulty_speed := BASE_SCROLL_SPEED }
  | PowerUpType.INVERT_CONTROLS => { e with timer_inverted := 300 }
  | PowerUpType.RAPID_FIRE => { e with timer_rapid_fire := 300 }

/-- The per-frame speed computation (space.py lines 393-404): slow-motion
halves the effective speed and is decremented; rapid-fire then overrides
the effective speed to 12 and the spawn frequency to 40 and is
decremented.  Returns (effective speed, spawn frequency, new slow-motion
timer, new rapid-fire timer). -/
def computeSpeeds (speed : ℚ) (slow rapid : ℕ) : ℚ × ℕ × ℕ × ℕ :=
  let e1 := if slow > 0 then speed * (1/2) else speed
  let slow' := if slow > 0 then slow - 1 else slow
  let e2 := if rapid > 0 then (12 : ℚ) else e1
  let freq := if rapid > 0 then (40 : ℕ) else BASE_CLOUD_FREQ
  let rapid' := if rapid > 0 then rapid - 1 else rapid
  (e2, freq, slow', rapid')

/-- One frame of a spawn timer (space.py lines 410-413 and 415-418):
increment, fire and reset to 0 when the timer exceeds the frequency. -/
def spawnTimerStep (freq timer : ℕ) : ℕ × Bool :=
  if timer + 1 > freq then (0, true) else (timer + 1, false)

/-- The spawn timer value after `n` PLAYING frames, starting from 0. -/
def spawnTimerAfter (freq : ℕ) : ℕ → ℕ
  | 0 => 0
  | n + 1 => (spawnTimerStep freq (spawnTimerAfter freq n)).1

/-- How many times a spawn timer starting at 0 fires during the first
`n` PLAYING frames. -/
def spawnFireCount (freq : ℕ) : ℕ → ℕ
  | 0 => 0
  | n + 1 =>
    spawnFireCount freq n +
      (if (spawnTimerStep freq (spawnTimerAfter freq n)).2 then 1 else 0)

-- COLLISION RESOLUTION (space.py lines 421-457)

/-- The state threaded through the power-up loop (space.py lines
421-437): the mutable effect/speed fields and the power-ups kept. -/
structure PuLoopState where
  effects : Effects
  kept : List PowerUp

/-- One iteration of the power-up loop (space.py lines 421-437): move,
then on player collision apply the effect and drop the power-up, else
drop it when fully past the left edge, else keep it. -/
def puStep (player : Rect) (eff : ℚ) (st : PuLoopState) (p : PowerUp) : PuLoopState :=
  let m := p.move eff
  if colliderect player m.rect then
    { st with effects := applyPowerUpEffect m.type st.effects }
  else if m.rect.right < 0 then st
  else { st with kept := st.kept ++ [m] }

/-- The power-up loop over a snapshot of the list (space.py line 421). -/
def puPhase (player : Rect) (eff : ℚ) : PuLoopState → List PowerUp → PuLoopState
  | st, [] => st
  | st, p :: ps => puPhase player eff (puStep player eff st p) ps

/-- Resolution of a scoring cloud collision (space.py lines 447-454):
apply the arithmetic, on a decimal penalty with rapid-fire inactive
multiply the difficulty speed by 1.2 clamping at 18, and transition to
TRANSITION_TO_LANDING when the new score equals the target.  Returns
(new score, new difficulty speed, new game state). -/
def resolveCloudHit (score : ℕ) (speed : ℚ) (state : GameState)
    (rapid target : ℕ) (op : Operation) (val : ℤ) : ℕ × ℚ × GameState :=
  let r := calculate score op val
  let speed' :=
    if r.2 = true ∧ rapid = 0 then
      let d := speed * (6/5)
      if d > 18 then (18 : ℚ) else d
    else speed
  let state' := if r.1 = target then GameState.TRANSITION_TO_LANDING else state
  (r.1, speed', state')

/-- Iterated collision resolution: fold `resolveCloudHit` over a list of
(operation, operand) pairs collided in order. -/
def resolveSeq (score : ℕ) (speed : ℚ) (state : GameState)
    (rapid target : ℕ) : List (Operation × ℤ) → ℕ × ℚ × GameState
  | [] => (score, speed, state)
  | (op, v) :: rest =>
    let r := resolveCloudHit score speed state rapid target op v
    resolveSeq r.1 r.2.1 r.2.2 rapid target rest

/-- The cloud sequence of the spec's end-to-end test property
(section 8): five ADD 9 clouds then one ADD 5 cloud. -/
def exampleCloudSeq : List (Operation × ℤ) :=
  [(Operation.ADD, 9), (Operation.ADD, 9), (Operation.ADD, 9),
   (Operation.ADD, 9), (Operation.ADD, 9), (Operation.ADD, 5)]

/-- The state threaded through the cloud loop (space.py lines 439-457):
score, difficulty speed and game state plus the clouds kept. -/
structure CloudLoopState where
  score : ℕ
  current_difficulty_speed : ℚ
  state : GameState
  kept : List Cloud

/-- One iteration of the cloud loop (space.py lines 439-457): move the
cloud, then if it overlaps the player and ghost mode is inactive resolve
the collision and drop the cloud; otherwise (ghost pass-through or no
overlap) drop it only when fully past the left edge.  In the scoring
branch the source's subsequent `right < 0` removal check is unreachable:
an overlapping cloud satisfies `right > player.x ≥ 0`. -/
def cloudStep (player : Rect) (ghost rapid target : ℕ) (eff wave : ℚ)
    (st : CloudLoopState) (c : Cloud) : CloudLoopState :=
  let m := c.move eff wave
  if colliderect player m.rect ∧ ghost = 0 then
    let r := resolveCloudHit st.score st.current_difficulty_speed st.state
      rapid target m.op m.val
    { score := r.1, current_difficulty_speed := r.2.1, state := r.2.2,
      kept := st.kept }
  else if m.rect.right < 0 then st
  else { st with kept := st.kept ++ [m] }

/-- The cloud loop over a snapshot of the list (space.py line 439); the
natural-number argument indexes the per-cloud sine-wave oracle. -/
def cloudPhase (player : Rect) (ghost rapid target : ℕ) (eff : ℚ)
    (wave : ℕ → ℚ) : ℕ → CloudLoopState → List Cloud → CloudLoopState
  | _, st, [] => st
  | i, st, c :: cs =>
    cloudPhase player ghost rapid target eff wave (i + 1)
      (cloudStep player ghost rapid target eff (wave i) st c) cs

-- GAME SESSION AND FRAME STEP (space.py lines 203-238, 361-460)

/-- The simulation-relevant session state of `SpaceMathGame` plus the
player's score and rect (`Player` owns them in the source).  The
presentation-only fields (stars, fonts, `msg`/`msg_timer`, `lander_y`,
`figure_x`) are omitted. -/
structure Session where
  state : GameState
  playerRect : Rect
  score : ℕ
  clouds : List Cloud
  powerups : List PowerUp
  target : ℕ
  timer_spawn_cloud : ℕ
  timer_spawn_powerup : ℕ
  current_difficulty_speed : ℚ
  timer_slow_motion : ℕ
  timer_ghost_mode : ℕ
  timer_inverted : ℕ
  timer_rapid_fire : ℕ

/-- `SpaceMathGame.reset_game` (space.py lines 216-238) together with
`Player.__init__` (lines 146-149): fresh session with one cloud wall
spawned ahead at x_offset 200. -/
def reset_game (picks : Fin 3 → Operation × ℤ) : Session :=
  { state := GameState.PLAYING
    playerRect := { x := 100, y := HEIGHT / 2, w := 100, h := 60 }
    score := 0
    clouds := spawn_cloud_wall picks 200
    powerups := []
    target := TARGET_NUMBER
    timer_spawn_cloud := 0
    timer_spawn_powerup := 0
    current_difficulty_speed := BASE_SCROLL_SPEED
    timer_slow_motion := 0
    timer_ghost_mode := 0
    timer_inverted := 0
    timer_rapid_fire := 0 }

/-- The SPACE key handler (space.py lines 368-371): restart only from
LANDING_SCENE or GAME_OVER. -/
def handle_space (s : Session) (picks : Fin 3 → Operation × ℤ) : Session :=
  if s.state = GameState.LANDING_SCENE ∨ s.state = GameState.GAME_OVER then
    reset_game picks
  else s

/-- Player vertical movement for one frame (space.py lines 382-391),
with the inverted-controls timer read before its decrement. -/
def movePlayer (r : Rect) (inverted : ℕ) (up down : Bool) : Rect :=
  if inverted > 0 then
    let r1 := if up ∧ r.y + r.h < HEIGHT then { r with y := r.y + PLAYER_SPEED } else r
    if down ∧ r1.y > 0 then { r1 with y := r1.y - PLAYER_SPEED } else r1
  else
    let r1 := if up ∧ r.y > 0 then { r with y := r.y - PLAYER_SPEED } else r
    if down ∧ r1.y + r1.h < HEIGHT then { r1 with y := r1.y + PLAYER_SPEED } else r1

/-- A fixed sample choice of cloud picks, used to instantiate witnesses. -/
def samplePicks : Fin 3 → Operation × ℤ := fun _ => (Operation.ADD, 1)

/-- The player's rect at its initial position, used to instantiate
witnesses. -/
def samplePlayerRect : Rect := { x := 100, y := 350, w := 100, h := 60 }

/-- A sample cloud positioned to overlap the player after one move at
speed 5 with wave 0, used to instantiate witnesses. -/
def sampleCloud : Cloud :=
  { rect := { x := 150, y := 350, w := 180, h := 120 },
    op := Operation.ADD, val := 9, original_y := 350 }

/-- A fixed sample session in the GAME_OVER state, used to instantiate
witnesses. -/
def sampleSession : Session :=
  { state := GameState.GAME_OVER
    playerRect := { x := 100, y := 350, w := 100, h := 60 }
    score := 7
    clouds := []
    powerups := []
    target := 50
    timer_spawn_cloud := 5
    timer_spawn_powerup := 6
    current_difficulty_speed := 9
    timer_slow_motion := 1
    timer_ghost_mode := 2
    timer_inverted := 3
    timer_rapid_fire := 4 }

/-- The per-frame random/clock inputs of a PLAYING frame. -/
structure FrameInput where
  up : Bool
  down : Bool
  cloudPicks : Fin 3 → Operation × ℤ
  puRoll : ℚ
  puY : ℤ
  wave : ℕ → ℚ

/-- One frame of the PLAYING state (space.py lines 378-460): player
movement, speed/timer updates, the two spawn timers, then the power-up
loop followed by the cloud loop.  Power-up effects collected this frame
(after the timer decrements) are visible to the cloud loop, exactly as
in the source. -/
def stepPlaying (s : Session) (inp : FrameInput) : Session :=
  let pr := movePlayer s.playerRect s.timer_inverted inp.up inp.down
  let sp := computeSpeeds s.current_difficulty_speed s.timer_slow_motion s.timer_rapid_fire
  let eff := sp.1
  let spawn_freq := sp.2.1
  let slow' := sp.2.2.1
  let rapid' := sp.2.2.2
  let ghost' := if s.timer_ghost_mode > 0 then s.timer_ghost_mode - 1 else s.timer_ghost_mode
  let inverted' := if s.timer_inverted > 0 then s.timer_inverted - 1 else s.timer_inverted
  let sc := spawnTimerStep spawn_freq s.timer_spawn_cloud
  let clouds1 := if sc.2 then s.clouds ++ spawn_cloud_wall inp.cloudPicks 0 else s.clouds
  let sp2 := spawnTimerStep POWERUP_FREQUENCY s.timer_spawn_powerup
  let pus1 := if sp2.2 then
      s.powerups ++ [spawn_powerup s.current_difficulty_speed inp.puRoll inp.puY]
    else s.powerups
  let puOut := puPhase pr eff
    { effects := { timer_slow_motion := slow', timer_ghost_mode := ghost',
                   timer_inverted := inverted', timer_rapid_fire := rapid',
                   current_difficulty_speed := s.current_difficulty_speed },
      kept := [] } pus1
  let cOut := cloudPhase pr puOut.effects.timer_ghost_mode
    puOut.effects.timer_rapid_fire s.target eff inp.wave 0
    { score := s.score,
      current_difficulty_speed := puOut.effects.current_difficulty_speed,
      state := s.state, kept := [] } clouds1
  { state := cOut.state
    playerRect := pr
    score := cOut.score
    clouds := cOut.kept
    powerups := puOut.kept
    target := s.target
    timer_spawn_cloud := sc.1
    timer_spawn_powerup := sp2.1
    current_difficulty_speed := cOut.current_difficulty_speed
    timer_slow_motion := puOut.effects.timer_slow_motion
    timer_ghost_mode := puOut.effects.timer_ghost_mode
    timer_inverted := puOut.effects.timer_inverted
    timer_rapid_fire := puOut.effects.timer_rapid_fire }

-- Helper lemmas about pyRound and rationals

lemma rat_den_one_iff_int (q : ℚ) : q.den = 1 ↔ ∃ z : ℤ, q = (z : ℚ) := by
  constructor
  · intro h
    refine ⟨q.num, ?_⟩
    conv_lhs => rw [← Rat.num_div_den q]
    rw [h]
    simp
  · rintro ⟨z, rfl⟩
    exact Rat.den_intCast z

lemma pyRound_nonneg (q : ℚ) (h : 0 ≤ q) : 0 ≤ pyRound q := by
  have h0 : (0 : ℤ) ≤ ⌊q⌋ := Int.floor_nonneg.mpr h
  unfold pyRound
  split
  · exact h0
  · split
    · omega
    · split <;> omega

lemma pyRound_close (q : ℚ) : |((pyRound q : ℤ) : ℚ) - q| ≤ 1/2 := by
  have hf : ((⌊q⌋ : ℤ) : ℚ) ≤ q := Int.floor_le q
  have hf2 : q < ⌊q⌋ + 1 := Int.lt_floor_add_one q
  unfold pyRound
  split
  · rename_i h
    rw [abs_le]
    constructor <;> linarith
  · split
    · rename_i h1 h2
      rw [abs_le]
      push_cast
      constructor <;> linarith
    · rename_i h1 h2
      have h3 : q - ⌊q⌋ = 1/2 := le_antisymm (not_lt.mp h2) (not_lt.mp h1)
      split
      · rw [abs_le]
        constructor <;> linarith
      · rw [abs_le]
        push_cast
        constructor <;> linarith

lemma pyRound_intCast (z : ℤ) : pyRound ((z : ℤ) : ℚ) = z := by
  unfold pyRound
  rw [Int.floor_intCast]
  rw [if_pos (by norm_num)]

lemma pyRound_int_add_half (z : ℤ) :
    pyRound ((z : ℚ) + 1/2) = if z % 2 = 0 then z else z + 1 := by
  have hfl : ⌊(z : ℚ) + 1/2⌋ = z := by
    rw [Int.floor_eq_iff]
    constructor
    · linarith
    · linarith
  unfold pyRound
  rw [hfl]
  rw [if_neg (by norm_num), if_neg (by norm_num)]

lemma half_den_ne_one (z : ℤ) : ((z : ℚ) + 1/2).den ≠ 1 := by
  intro hone
  rw [rat_den_one_iff_int] at hone
  obtain ⟨w, hw⟩ := hone
  have h1 : ((2 * (w - z) : ℤ) : ℚ) = 1 := by
    push_cast
    linarith
  have h2 : (2 * (w - z) : ℤ) = 1 := by exact_mod_cast h1
  omega

lemma clampedResult_nonneg (score : ℕ) (op : Operation) (val : ℤ) :
    0 ≤ clampedResult score op val := by
  unfold clampedResult
  split
  · exact le_refl 0
  · rename_i h
    exact not_lt.mp h

lemma specClamped_eq_clampedResult (score : ℕ) (op : Operation) (val : ℤ) :
    specClamped score op val = clampedResult score op val := by
  unfold specClamped specRawResult clampedResult rawResult
  rcases lt_or_le (match op with
    | Operation.ADD => (score : ℚ) + (val : ℚ)
    | Operation.SUBTRACT => (score : ℚ) - (val : ℚ)
    | Operation.MULTIPLY => (score : ℚ) * (val : ℚ)
    | Operation.DIVIDE => (score : ℚ) / (val : ℚ)) 0 with h | h
  · rw [if_pos h, max_eq_right h.le]
  · rw [if_neg (not_lt.mpr h), max_eq_left h]

-- Evaluation helpers for calculate on concrete shapes of the raw result

lemma calculate_of_int (S : ℕ) (op : Operation) (V : ℤ) (z : ℤ)
    (hguard : ¬(op = Operation.DIVIDE ∧ V = 0))
    (hz : rawResult S op V = (z : ℚ)) (hz0 : 0 ≤ z) :
    calculate S op V = (z.toNat, false) := by
  have hcl : clampedResult S op V = (z : ℚ) := by
    unfold clampedResult
    rw [hz, if_neg (not_lt.mpr (by exact_mod_cast hz0))]
  unfold calculate
  rw [if_neg hguard, hcl, pyRound_intCast]
  simp [Rat.den_intCast]

lemma calculate_of_half (S : ℕ) (op : Operation) (V : ℤ) (z : ℤ)
    (hguard : ¬(op = Operation.DIVIDE ∧ V = 0))
    (hz : rawResult S op V = (z : ℚ) + 1/2) (hz0 : 0 ≤ z) :
    calculate S op V = ((if z % 2 = 0 then z else z + 1).toNat, true) := by
  have hcl : clampedResult S op V = (z : ℚ) + 1/2 := by
    unfold clampedResult
    rw [hz, if_neg (not_lt.mpr (by positivity))]
  unfold calculate
  rw [if_neg hguard, hcl, pyRound_int_add_half, decide_eq_true (half_den_ne_one z)]

-- CLAIM THEOREMS (arithmetic engine)

/-- C1: for every non-negative integer score `S`, operation `op` and
operand `V` (with `V ≠ 0` when `op` is DIVIDE), `Player.calculate`
computes the raw result S+V, S-V, S*V or S/V, clamps it to 0 if
negative, flags the decimal penalty exactly when the clamped raw result
is not an integer, and stores as the new score (a value of type `ℕ`,
hence a non-negative integer) the clamped raw result rounded to the
nearest integer (distance at most 1/2). -/
theorem calculate_clamps_and_rounds (S : ℕ) (op : Operation) (V : ℤ)
    (h : op = Operation.DIVIDE → V ≠ 0) :
    ((calculate S op V).2 = true ↔ ¬ ∃ z : ℤ, specClamped S op V = (z : ℚ)) ∧
    |((calculate S op V).1 : ℚ) - specClamped S op V| ≤ 1/2 := by
  have hguard : ¬(op = Operation.DIVIDE ∧ V = 0) := by
    rintro ⟨h1, h2⟩
    exact h h1 h2
  have hc : specClamped S op V = clampedResult S op V :=
    specClamped_eq_clampedResult S op V
  rw [hc]
  unfold calculate
  rw [if_neg hguard]
  constructor
  · rw [decide_eq_true_iff]
    exact not_congr (rat_den_one_iff_int _)
  · have hnn : 0 ≤ clampedResult S op V := clampedResult_nonneg S op V
    have htn : ((pyRound (clampedResult S op V)).toNat : ℤ)
        = pyRound (clampedResult S op V) :=
      Int.toNat_of_nonneg (pyRound_nonneg _ hnn)
    have hcast : (((pyRound (clampedResult S op V)).toNat : ℕ) : ℚ)
        = ((pyRound (clampedResult S op V) : ℤ) : ℚ) := by
      exact_mod_cast congrArg (fun z : ℤ => (z : ℚ)) htn
    simpa [hcast] using pyRound_close (clampedResult S op V)

/-- C1 witness: the theorem applied at S = 7, op = DIVIDE, V = 2. -/
theorem calculate_clamps_and_rounds_witness :
    (Operation.DIVIDE = Operation.DIVIDE → (2 : ℤ) ≠ 0) ∧
    (((calculate 7 Operation.DIVIDE 2).2 = true ↔
        ¬ ∃ z : ℤ, specClamped 7 Operation.DIVIDE 2 = (z : ℚ)) ∧
      |((calculate 7 Operation.DIVIDE 2).1 : ℚ) - specClamped 7 Operation.DIVIDE 2| ≤ 1/2) :=
  ⟨fun _ => by decide, calculate_clamps_and_rounds 7 Operation.DIVIDE 2 (fun _ => by decide)⟩

/-- C2: dividing by zero is a no-op: the score is returned unchanged and
no penalty is flagged (space.py line 158). -/
theorem calculate_divide_zero (S : ℕ) :
    calculate S Operation.DIVIDE 0 = (S, false) := rfl

/-- C10: the rounding used for the stored score is round-half-to-even
(Python's `round`): whenever the clamped raw result is exactly halfway
between two integers the stored score is even; in particular
`calculate 5 DIVIDE 2` stores 2 and `calculate 7 DIVIDE 2` stores 4. -/
theorem calculate_ties_to_even :
    (∀ (S : ℕ) (op : Operation) (V : ℤ), (op = Operation.DIVIDE → V ≠ 0) →
      clampedResult S op V - ⌊clampedResult S op V⌋ = 1/2 →
      Even ((calculate S op V).1)) ∧
    calculate 5 Operation.DIVIDE 2 = (2, true) ∧
    calculate 7 Operation.DIVIDE 2 = (4, true) := by
  refine ⟨?_, ?_, ?_⟩
  · intro S op V h hhalf
    have hguard : ¬(op = Operation.DIVIDE ∧ V = 0) := by
      rintro ⟨h1, h2⟩
      exact h h1 h2
    set q := clampedResult S op V with hq
    have hnn : 0 ≤ q := clampedResult_nonneg S op V
    have heven : Even (pyRound q) := by
      unfold pyRound
      rw [hhalf]
      rw [if_neg (by norm_num), if_neg (by norm_num)]
      split
      · rename_i hmod
        exact Int.even_iff.mpr hmod
      · rename_i hmod
        exact Int.even_iff.mpr (by omega)
    have hcalc : (calculate S op V).1 = (pyRound q).toNat := by
      unfold calculate
      rw [if_neg hguard]
    rw [hcalc]
    have htn : ((pyRound q).toNat : ℤ) = pyRound q :=
      Int.toNat_of_nonneg (pyRound_nonneg _ hnn)
    have heven2 : Even (((pyRound q).toNat : ℤ)) := htn ▸ heven
    exact_mod_cast heven2
  · have := calculate_of_half 5 Operation.DIVIDE 2 2 (by rintro ⟨_, h2⟩; exact absurd h2 (by decide))
      (by unfold rawResult; push_cast; norm_num) (by norm_num)
    simpa using this
  · have := calculate_of_half 7 Operation.DIVIDE 2 3 (by rintro ⟨_, h2⟩; exact absurd h2 (by decide))
      (by unfold rawResult; push_cast; norm_num) (by norm_num)
    simpa using this

/-- C10 witness: the general half-way statement applied at S = 5,
op = DIVIDE, V = 2. -/
theorem calculate_ties_to_even_witness :
    (Operation.DIVIDE = Operation.DIVIDE → (2 : ℤ) ≠ 0) ∧
    clampedResult 5 Operation.DIVIDE 2 - ⌊clampedResult 5 Operation.DIVIDE 2⌋ = 1/2 ∧
    Even ((calculate 5 Operation.DIVIDE 2).1) := by
  have hhalf : clampedResult 5 Operation.DIVIDE 2 - ⌊clampedResult 5 Operation.DIVIDE 2⌋ = 1/2 := by
    have hcl : clampedResult 5 Operation.DIVIDE 2 = (5 : ℚ) / 2 := by
      unfold clampedResult rawResult
      rw [if_neg (by push_cast; norm_num)]
      push_cast
      ring
    rw [hcl]
    norm_num
  exact ⟨fun _ => by decide, hhalf,
    calculate_ties_to_even.1 5 Operation.DIVIDE 2 (fun _ => by decide) hhalf⟩

-- Helper: evaluation of calculate for ADD with a non-negative operand

lemma calculate_add_eval (S : ℕ) (V : ℤ) (hV : 0 ≤ V) :
    calculate S Operation.ADD V = (S + V.toNat, false) := by
  have h := calculate_of_int S Operation.ADD V ((S : ℤ) + V)
    (by rintro ⟨h1, _⟩; exact absurd h1 (by decide))
    (by unfold rawResult; push_cast; ring)
    (by omega)
  rw [h]
  simp only [Prod.mk.injEq]
  refine ⟨by omega, by simp⟩

-- CLAIM THEOREMS (frame effects)

/-- C5: on a scoring cloud collision that flags the decimal penalty while
the rapid-fire timer is 0, the difficulty speed becomes
min(speed × 1.2, 18); when the rapid-fire timer is active the collision
leaves the difficulty speed unchanged (space.py lines 447-450). -/
theorem penalty_speed_increase (score : ℕ) (speed : ℚ) (state : GameState)
    (rapid target : ℕ) (op : Operation) (val : ℤ) :
    ((calculate score op val).2 = true ∧ rapid = 0 →
      (resolveCloudHit score speed state rapid target op val).2.1
        = min (speed * (6/5)) 18) ∧
    (0 < rapid →
      (resolveCloudHit score speed state rapid target op val).2.1 = speed) := by
  constructor
  · intro hp
    simp only [resolveCloudHit]
    rw [if_pos hp]
    rcases le_or_lt (speed * (6/5)) 18 with h | h
    · rw [if_neg (not_lt.mpr h), min_eq_left h]
    · rw [if_pos h, min_eq_right h.le]
  · intro hr
    simp only [resolveCloudHit]
    rw [if_neg (by rintro ⟨_, h0⟩; omega)]

/-- C5 witness: the theorem applied to a penalty collision
(score 1, DIVIDE 2) at difficulty speed 5 with rapid-fire 0, and to the
same collision with rapid-fire 1. -/
theorem penalty_speed_increase_witness :
    ((calculate 1 Operation.DIVIDE 2).2 = true ∧ (0 : ℕ) = 0) ∧
    (resolveCloudHit 1 5 GameState.PLAYING 0 50 Operation.DIVIDE 2).2.1
      = min ((5 : ℚ) * (6/5)) 18 ∧
    (resolveCloudHit 1 5 GameState.PLAYING 1 50 Operation.DIVIDE 2).2.1 = 5 := by
  have hc : calculate 1 Operation.DIVIDE 2 = (0, true) := by
    have h := calculate_of_half 1 Operation.DIVIDE 2 0
      (by rintro ⟨_, h2⟩; exact absurd h2 (by decide))
      (by unfold rawResult; push_cast; norm_num)
      (by norm_num)
    simpa using h
  refine ⟨⟨by rw [hc], rfl⟩, ?_, ?_⟩
  · exact (penalty_speed_increase 1 5 GameState.PLAYING 0 50 Operation.DIVIDE 2).1
      ⟨by rw [hc], rfl⟩
  · exact (penalty_speed_increase 1 5 GameState.PLAYING 1 50 Operation.DIVIDE 2).2
      (by norm_num)

/-- C6: with the rapid-fire timer active the effective scroll speed for
the frame is forced to 12 and the cloud spawn frequency to 40,
regardless of the slow-motion timer and the difficulty speed; with only
slow-motion active the effective speed is difficultySpeed × 0.5
(space.py lines 394-404). -/
theorem rapid_fire_overrides (D : ℚ) (slow rapid : ℕ) :
    (0 < rapid →
      (computeSpeeds D slow rapid).1 = 12 ∧ (computeSpeeds D slow rapid).2.1 = 40) ∧
    (0 < slow → rapid = 0 → (computeSpeeds D slow rapid).1 = D * (1/2)) := by
  constructor
  · intro hr
    constructor <;> simp [computeSpeeds, hr]
  · intro hs hr0
    simp [computeSpeeds, hs, hr0]

/-- C6 witness: the theorem applied at difficulty speed 7 with both
timers active (slow 3, rapid 2), and with only slow-motion active. -/
theorem rapid_fire_overrides_witness :
    (0 : ℕ) < 2 ∧
    ((computeSpeeds 7 3 2).1 = 12 ∧ (computeSpeeds 7 3 2).2.1 = 40) ∧
    (computeSpeeds 7 3 0).1 = 7 * (1/2) :=
  ⟨by decide, (rapid_fire_overrides 7 3 2).1 (by decide),
    (rapid_fire_overrides 7 3 0).2 (by decide) rfl⟩

/-- C7: collecting a ROUND_NUM power-up sets the difficulty speed to the
base scroll speed (5) whatever its prior value, and changes none of the
four effect timers (space.py lines 429-430). -/
theorem round_num_resets_speed (e : Effects) :
    (applyPowerUpEffect PowerUpType.ROUND_NUM e).current_difficulty_speed
      = BASE_SCROLL_SPEED ∧
    (applyPowerUpEffect PowerUpType.ROUND_NUM e).timer_slow_motion
      = e.timer_slow_motion ∧
    (applyPowerUpEffect PowerUpType.ROUND_NUM e).timer_ghost_mode
      = e.timer_ghost_mode ∧
    (applyPowerUpEffect PowerUpType.ROUND_NUM e).timer_inverted
      = e.timer_inverted ∧
    (applyPowerUpEffect PowerUpType.ROUND_NUM e).timer_rapid_fire
      = e.timer_rapid_fire :=
  ⟨rfl, rfl, rfl, rfl, rfl⟩

/-- C8: pressing SPACE in LANDING_SCENE or GAME_OVER resets the session:
score 0, difficulty speed back to base, all four effect timers and both
spawn timers 0, no power-ups, and exactly one freshly spawned wall of 3
clouds, one per lane (their lane y-positions are 56, 289 and 522 for the
three `HEIGHT // 3` bands), with the state back to PLAYING
(space.py lines 368-371 and 216-238). -/
theorem reset_game_state (picks : Fin 3 → Operation × ℤ) (s : Session)
    (hs : s.state = GameState.LANDING_SCENE ∨ s.state = GameState.GAME_OVER) :
    handle_space s picks = reset_game picks ∧
    (reset_game picks).score = 0 ∧
    (reset_game picks).current_difficulty_speed = BASE_SCROLL_SPEED ∧
    (reset_game picks).timer_slow_motion = 0 ∧
    (reset_game picks).timer_ghost_mode = 0 ∧
    (reset_game picks).timer_inverted = 0 ∧
    (reset_game picks).timer_rapid_fire = 0 ∧
    (reset_game picks).timer_spawn_cloud = 0 ∧
    (reset_game picks).timer_spawn_powerup = 0 ∧
    (reset_game picks).powerups = [] ∧
    (reset_game picks).clouds = spawn_cloud_wall picks 200 ∧
    (reset_game picks).clouds.length = 3 ∧
    (reset_game picks).clouds.map (fun c => c.rect.y) = [56, 289, 522] ∧
    (reset_game picks).state = GameState.PLAYING := by
  refine ⟨?_, rfl, rfl, rfl, rfl, rfl, rfl, rfl, rfl, rfl, rfl, rfl, ?_, rfl⟩
  · unfold handle_space
    rw [if_pos hs]
  · show (spawn_cloud_wall picks 200).map (fun c => c.rect.y) = [56, 289, 522]
    simp only [spawn_cloud_wall, cloudAtLane, List.map_cons, List.map_nil, HEIGHT]
    norm_num

/-- C8 witness: the theorem applied to a dirty GAME_OVER session. -/
theorem reset_game_state_witness :
    (sampleSession.state = GameState.LANDING_SCENE ∨
      sampleSession.state = GameState.GAME_OVER) ∧
    (handle_space sampleSession samplePicks = reset_game samplePicks ∧
      (reset_game samplePicks).score = 0 ∧
      (reset_game samplePicks).current_difficulty_speed = BASE_SCROLL_SPEED ∧
      (reset_game samplePicks).timer_slow_motion = 0 ∧
      (reset_game samplePicks).timer_ghost_mode = 0 ∧
      (reset_game samplePicks).timer_inverted = 0 ∧
      (reset_game samplePicks).timer_rapid_fire = 0 ∧
      (reset_game samplePicks).timer_spawn_cloud = 0 ∧
      (reset_game samplePicks).timer_spawn_powerup = 0 ∧
      (reset_game samplePicks).powerups = [] ∧
      (reset_game samplePicks).clouds = spawn_cloud_wall samplePicks 200 ∧
      (reset_game samplePicks).clouds.length = 3 ∧
      (reset_game samplePicks).clouds.map (fun c => c.rect.y) = [56, 289, 522] ∧
      (reset_game samplePicks).state = GameState.PLAYING) :=
  ⟨Or.inr rfl, reset_game_state samplePicks sampleSession (Or.inr rfl)⟩

/-- C4: resolving a scoring cloud collision in state PLAYING transitions
to TRANSITION_TO_LANDING exactly when the new score equals the target
(space.py lines 453-454); and colliding in order with the clouds
[ADD 9, ADD 9, ADD 9, ADD 9, ADD 9, ADD 5] from score 0 with target 50
leaves the state PLAYING after each of the first five collisions and
yields score 50 with the transition exactly after the sixth. -/
theorem transition_iff_target :
    (∀ (score : ℕ) (speed : ℚ) (rapid target : ℕ) (op : Operation) (val : ℤ),
      ((resolveCloudHit score speed GameState.PLAYING rapid target op val).2.2
          = GameState.TRANSITION_TO_LANDING
        ↔ (resolveCloudHit score speed GameState.PLAYING rapid target op val).1
          = target)) ∧
    (resolveSeq 0 5 GameState.PLAYING 0 50 (exampleCloudSeq.take 1)).2.2
      = GameState.PLAYING ∧
    (resolveSeq 0 5 GameState.PLAYING 0 50 (exampleCloudSeq.take 2)).2.2
      = GameState.PLAYING ∧
    (resolveSeq 0 5 GameState.PLAYING 0 50 (exampleCloudSeq.take 3)).2.2
      = GameState.PLAYING ∧
    (resolveSeq 0 5 GameState.PLAYING 0 50 (exampleCloudSeq.take 4)).2.2
      = GameState.PLAYING ∧
    (resolveSeq 0 5 GameState.PLAYING 0 50 (exampleCloudSeq.take 5)).2.2
      = GameState.PLAYING ∧
    (resolveSeq 0 5 GameState.PLAYING 0 50 exampleCloudSeq).1 = 50 ∧
    (resolveSeq 0 5 GameState.PLAYING 0 50 exampleCloudSeq).2.2
      = GameState.TRANSITION_TO_LANDING := by
  have e1 : calculate 0 Operation.ADD 9 = (9, false) := by
    have h := calculate_add_eval 0 9 (by norm_num)
    simpa using h
  have e2 : calculate 9 Operation.ADD 9 = (18, false) := by
    have h := calculate_add_eval 9 9 (by norm_num)
    simpa using h
  have e3 : calculate 18 Operation.ADD 9 = (27, false) := by
    have h := calculate_add_eval 18 9 (by norm_num)
    simpa using h
  have e4 : calculate 27 Operation.ADD 9 = (36, false) := by
    have h := calculate_add_eval 27 9 (by norm_num)
    simpa using h
  have e5 : calculate 36 Operation.ADD 9 = (45, false) := by
    have h := calculate_add_eval 36 9 (by norm_num)
    simpa using h
  have e6 : calculate 45 Operation.ADD 5 = (50, false) := by
    have h := calculate_add_eval 45 5 (by norm_num)
    simpa using h
  refine ⟨?_, ?_, ?_, ?_, ?_, ?_, ?_, ?_⟩
  · intro score speed rapid target op val
    simp only [resolveCloudHit]
    split
    · rename_i h
      exact ⟨fun _ => h, fun _ => rfl⟩
    · rename_i h
      constructor
      · intro hcontra
        exact GameState.noConfusion hcontra
      · intro h50
        exact absurd h50 h
  · simp [exampleCloudSeq, resolveSeq, resolveCloudHit, e1]
  · simp [exampleCloudSeq, resolveSeq, resolveCloudHit, e1, e2]
  · simp [exampleCloudSeq, resolveSeq, resolveCloudHit, e1, e2, e3]
  · simp [exampleCloudSeq, resolveSeq, resolveCloudHit, e1, e2, e3, e4]
  · simp [exampleCloudSeq, resolveSeq, resolveCloudHit, e1, e2, e3, e4, e5]
  · simp [exampleCloudSeq, resolveSeq, resolveCloudHit, e1, e2, e3, e4, e5, e6]
  · simp [exampleCloudSeq, resolveSeq, resolveCloudHit, e1, e2, e3, e4, e5, e6]

-- Ghost-mode lemmas for the cloud loop

lemma cloudStep_ghost_active (player : Rect) (ghost rapid target : ℕ)
    (eff wave : ℚ) (st : CloudLoopState) (c : Cloud) (hg : 0 < ghost) :
    (cloudStep player ghost rapid target eff wave st c).score = st.score ∧
    (cloudStep player ghost rapid target eff wave st c).state = st.state ∧
    ((cloudStep player ghost rapid target eff wave st c).kept = st.kept ∨
      (cloudStep player ghost rapid target eff wave st c).kept
        = st.kept ++ [c.move eff wave]) := by
  simp only [cloudStep]
  rw [if_neg (by rintro ⟨_, h0⟩; omega)]
  by_cases hr : (c.move eff wave).rect.right < 0
  · rw [if_pos hr]
    exact ⟨rfl, rfl, Or.inl rfl⟩
  · rw [if_neg hr]
    exact ⟨rfl, rfl, Or.inr rfl⟩

lemma cloudPhase_ghost_active (player : Rect) (ghost rapid target : ℕ)
    (eff : ℚ) (wave : ℕ → ℚ) (hg : 0 < ghost) :
    ∀ (cs : List Cloud) (i : ℕ) (st : CloudLoopState),
      (cloudPhase player ghost rapid target eff wave i st cs).score = st.score ∧
      (cloudPhase player ghost rapid target eff wave i st cs).state = st.state ∧
      ∃ tail, (cloudPhase player ghost rapid target eff wave i st cs).kept
        = st.kept ++ tail := by
  intro cs
  induction cs with
  | nil =>
    intro i st
    exact ⟨rfl, rfl, [], by simp [cloudPhase]⟩
  | cons c cs ih =>
    intro i st
    obtain ⟨h1, h2, h3⟩ :=
      cloudStep_ghost_active player ghost rapid target eff (wave i) st c hg
    obtain ⟨g1, g2, tail, g3⟩ :=
      ih (i + 1) (cloudStep player ghost rapid target eff (wave i) st c)
    refine ⟨?_, ?_, ?_⟩
    · show (cloudPhase player ghost rapid target eff wave (i + 1)
        (cloudStep player ghost rapid target eff (wave i) st c) cs).score = st.score
      rw [g1, h1]
    · show (cloudPhase player ghost rapid target eff wave (i + 1)
        (cloudStep player ghost rapid target eff (wave i) st c) cs).state = st.state
      rw [g2, h2]
    · rcases h3 with hk | hk
      · refine ⟨tail, ?_⟩
        show (cloudPhase player ghost rapid target eff wave (i + 1)
          (cloudStep player ghost rapid target eff (wave i) st c) cs).kept
          = st.kept ++ tail
        rw [g3, hk]
      · refine ⟨[c.move eff (wave i)] ++ tail, ?_⟩
        show (cloudPhase player ghost rapid target eff wave (i + 1)
          (cloudStep player ghost rapid target eff (wave i) st c) cs).kept
          = st.kept ++ ([c.move eff (wave i)] ++ tail)
        rw [g3, hk, List.append_assoc]

lemma cloudPhase_ghost_keeps (player : Rect) (ghost rapid target : ℕ)
    (eff : ℚ) (wave : ℕ → ℚ) (hg : 0 < ghost) (hp : 0 ≤ player.x) :
    ∀ (cs : List Cloud) (i : ℕ) (st : CloudLoopState) (j : ℕ) (hj : j < cs.length),
      colliderect player ((cs.get ⟨j, hj⟩).move eff (wave (i + j))).rect = true →
      (cs.get ⟨j, hj⟩).move eff (wave (i + j)) ∈
        (cloudPhase player ghost rapid target eff wave i st cs).kept := by
  intro cs
  induction cs with
  | nil =>
    intro i st j hj
    exact absurd hj (by simp)
  | cons c cs ih =>
    intro i st j hj hcol
    cases j with
    | zero =>
      rw [Nat.add_zero] at hcol ⊢
      have hget : (c :: cs).get ⟨0, hj⟩ = c := rfl
      rw [hget] at hcol ⊢
      have hnotoff : ¬ (c.move eff (wave i)).rect.right < 0 := by
        simp only [colliderect, Bool.and_eq_true, decide_eq_true_eq] at hcol
        obtain ⟨⟨⟨hA, _⟩, _⟩, _⟩ := hcol
        simp only [Rect.right]
        omega
      have hstep : (cloudStep player ghost rapid target eff (wave i) st c).kept
          = st.kept ++ [c.move eff (wave i)] := by
        simp only [cloudStep]
        rw [if_neg (by rintro ⟨_, h0⟩; omega), if_neg hnotoff]
      obtain ⟨_, _, tail, hk⟩ :=
        cloudPhase_ghost_active player ghost rapid target eff wave hg cs (i + 1)
          (cloudStep player ghost rapid target eff (wave i) st c)
      show c.move eff (wave i) ∈
        (cloudPhase player ghost rapid target eff wave (i + 1)
          (cloudStep player ghost rapid target eff (wave i) st c) cs).kept
      rw [hk, hstep]
      simp
    | succ j' =>
      have hj' : j' < cs.length := by
        simpa using hj
      have harr : i + (j' + 1) = (i + 1) + j' := by omega
      have hget : (c :: cs).get ⟨j' + 1, hj⟩ = cs.get ⟨j', hj'⟩ := rfl
      rw [hget, harr] at hcol ⊢
      exact ih (i + 1) (cloudStep player ghost rapid target eff (wave i) st c)
        j' hj' hcol

/-- C3: in a PLAYING frame's cloud loop with the ghost timer active
(as read at the collision check, space.py line 444), a cloud whose moved
rect overlaps the player changes nothing: the loop leaves the score
unchanged and the state PLAYING, and every overlapping cloud is still in
the cloud list afterwards (it is only ever removed by scrolling past the
left edge, which an overlapping cloud cannot have done since the player
sits at x ≥ 0). -/
theorem ghost_mode_passthrough (player : Rect) (ghost rapid target : ℕ)
    (eff : ℚ) (wave : ℕ → ℚ) (clouds : List Cloud) (score : ℕ) (speed : ℚ)
    (hg : 0 < ghost) (hp : 0 ≤ player.x) :
    (cloudPhase player ghost rapid target eff wave 0
      { score := score, current_difficulty_speed := speed,
        state := GameState.PLAYING, kept := [] } clouds).score = score ∧
    (cloudPhase player ghost rapid target eff wave 0
      { score := score, current_difficulty_speed := speed,
        state := GameState.PLAYING, kept := [] } clouds).state
      = GameState.PLAYING ∧
    ∀ (j : ℕ) (hj : j < clouds.length),
      colliderect player ((clouds.get ⟨j, hj⟩).move eff (wave j)).rect = true →
      (clouds.get ⟨j, hj⟩).move eff (wave j) ∈
        (cloudPhase player ghost rapid target eff wave 0
          { score := score, current_difficulty_speed := speed,
            state := GameState.PLAYING, kept := [] } clouds).kept := by
  obtain ⟨h1, h2, _⟩ :=
    cloudPhase_ghost_active player ghost rapid target eff wave hg clouds 0
      { score := score, current_difficulty_speed := speed,
        state := GameState.PLAYING, kept := [] }
  refine ⟨h1, h2, ?_⟩
  intro j hj hcol
  have h := cloudPhase_ghost_keeps player ghost rapid target eff wave hg hp
    clouds 0
    { score := score, current_difficulty_speed := speed,
      state := GameState.PLAYING, kept := [] } j hj (by simpa using hcol)
  simpa using h

/-- C3 witness: the theorem applied to a frame with ghost timer 1 and a
single cloud positioned to overlap the player after its move. -/
theorem ghost_mode_passthrough_witness :
    (0 : ℕ) < 1 ∧ (0 : ℤ) ≤ samplePlayerRect.x ∧
    ((cloudPhase samplePlayerRect 1 0 50 5 (fun _ => 0) 0
      { score := 0, current_difficulty_speed := 5,
        state := GameState.PLAYING, kept := [] } [sampleCloud]).score = 0 ∧
    (cloudPhase samplePlayerRect 1 0 50 5 (fun _ => 0) 0
      { score := 0, current_difficulty_speed := 5,
        state := GameState.PLAYING, kept := [] } [sampleCloud]).state
      = GameState.PLAYING ∧
    ∀ (j : ℕ) (hj : j < ([sampleCloud] : List Cloud).length),
      colliderect samplePlayerRect
        ((([sampleCloud] : List Cloud).get ⟨j, hj⟩).move 5
          ((fun _ => (0 : ℚ)) j)).rect = true →
      (([sampleCloud] : List Cloud).get ⟨j, hj⟩).move 5 ((fun _ => (0 : ℚ)) j) ∈
        (cloudPhase samplePlayerRect 1 0 50 5 (fun _ => 0) 0
          { score := 0, current_difficulty_speed := 5,
            state := GameState.PLAYING, kept := [] } [sampleCloud]).kept) :=
  ⟨by decide, by norm_num [samplePlayerRect],
    ghost_mode_passthrough samplePlayerRect 1 0 50 5 (fun _ => 0) [sampleCloud]
      0 5 (by decide) (by norm_num [samplePlayerRect])⟩

-- Spawn-timer lemmas

lemma spawnTimerAfter_mod (freq : ℕ) : ∀ n, spawnTimerAfter freq n = n % (freq + 1) := by
  intro n
  induction n with
  | zero => rfl
  | succ n ih =>
    show (spawnTimerStep freq (spawnTimerAfter freq n)).1 = (n + 1) % (freq + 1)
    rw [ih]
    unfold spawnTimerStep
    have hlt : n % (freq + 1) < freq + 1 := Nat.mod_lt _ (by omega)
    have hmm : (n % (freq + 1) + 1) % (freq + 1) = (n + 1) % (freq + 1) :=
      Nat.mod_add_mod n (freq + 1) 1
    by_cases hc : n % (freq + 1) + 1 > freq
    · rw [if_pos hc]
      have heq : n % (freq + 1) = freq := by omega
      have h2 : (n + 1) % (freq + 1) = 0 := by
        rw [← hmm, heq, Nat.mod_self]
      rw [h2]
    · rw [if_neg hc]
      show n % (freq + 1) + 1 = (n + 1) % (freq + 1)
      have hsmall : (n % (freq + 1) + 1) % (freq + 1) = n % (freq + 1) + 1 :=
        Nat.mod_eq_of_lt (by omega)
      rw [← hmm, hsmall]

lemma spawnFired_iff (freq n : ℕ) :
    (spawnTimerStep freq (spawnTimerAfter freq n)).2 = true ↔
      (n + 1) % (freq + 1) = 0 := by
  rw [spawnTimerAfter_mod]
  unfold spawnTimerStep
  have hlt : n % (freq + 1) < freq + 1 := Nat.mod_lt _ (by omega)
  have hmm : (n % (freq + 1) + 1) % (freq + 1) = (n + 1) % (freq + 1) :=
    Nat.mod_add_mod n (freq + 1) 1
  by_cases hc : n % (freq + 1) + 1 > freq
  · rw [if_pos hc]
    have heq : n % (freq + 1) = freq := by omega
    have h2 : (n + 1) % (freq + 1) = 0 := by
      rw [← hmm, heq, Nat.mod_self]
    simp [h2]
  · rw [if_neg hc]
    have h2 : (n + 1) % (freq + 1) = n % (freq + 1) + 1 := by
      have hsmall : (n % (freq + 1) + 1) % (freq + 1) = n % (freq + 1) + 1 :=
        Nat.mod_eq_of_lt (by omega)
      rw [← hmm, hsmall]
    constructor
    · intro hf
      exact absurd hf (by simp)
    · intro h0
      rw [h2] at h0
      omega

lemma spawnFireCount_zero (freq : ℕ) : ∀ n, n ≤ freq → spawnFireCount freq n = 0 := by
  intro n
  induction n with
  | zero => intro _; rfl
  | succ n ih =>
    intro hn
    have hne : ¬ (spawnTimerStep freq (spawnTimerAfter freq n)).2 = true := by
      rw [spawnFired_iff, Nat.mod_eq_of_lt (by omega)]
      omega
    show spawnFireCount freq n +
      (if (spawnTimerStep freq (spawnTimerAfter freq n)).2 = true then 1 else 0) = 0
    rw [ih (by omega), if_neg hne]

/-- C9 counterexample: with the spawn timers starting at 0, the spawn
condition `timer > spawn_freq` (space.py lines 411 and 416) does not
fire even once during the first `spawn_freq` PLAYING frames — no cloud
wall in the first 160 frames (resp. 40 during rapid-fire) and no
power-up in the first 600 frames — refuting the claimed period of
exactly `spawn_freq` (resp. 600) frames; the actual period is one frame
longer. -/
theorem spawn_period_counterexample :
    spawnFireCount BASE_CLOUD_FREQ BASE_CLOUD_FREQ = 0 ∧
    spawnFireCount 40 40 = 0 ∧
    spawnFireCount POWERUP_FREQUENCY POWERUP_FREQUENCY = 0 :=
  ⟨spawnFireCount_zero BASE_CLOUD_FREQ BASE_CLOUD_FREQ le_rfl,
   spawnFireCount_zero 40 40 le_rfl,
   spawnFireCount_zero POWERUP_FREQUENCY POWERUP_FREQUENCY le_rfl⟩

/-- C9 amended: with the spawn timers starting at 0, a spawn fires on
frame k exactly when k is a multiple of `spawn_freq + 1` (161 by
default, 41 during rapid-fire, 601 for power-ups), the firing timer is
reset to 0, and every cloud-wall spawn creates exactly 3 clouds. -/
theorem spawn_period_amended (freq n t : ℕ) (picks : Fin 3 → Operation × ℤ)
    (off : ℤ) :
    ((spawnTimerStep freq (spawnTimerAfter freq n)).2 = true ↔
      (n + 1) % (freq + 1) = 0) ∧
    ((spawnTimerStep freq t).2 = true → (spawnTimerStep freq t).1 = 0) ∧
    (spawn_cloud_wall picks off).length = 3 := by
  refine ⟨spawnFired_iff freq n, ?_, rfl⟩
  intro hf
  unfold spawnTimerStep at hf ⊢
  by_cases hc : t + 1 > freq
  · rw [if_pos hc]
  · rw [if_neg hc] at hf
    exact absurd hf (by simp)

/-- C9 witness: the amended theorem applied at the default cloud
frequency 160, frame 161 (so the timer fires there) and timer value
160. -/
theorem spawn_period_amended_witness :
    ((spawnTimerStep 160 (spawnTimerAfter 160 160)).2 = true ↔
      (160 + 1) % (160 + 1) = 0) ∧
    (spawnTimerStep 160 160).1 = 0 ∧
    (spawn_cloud_wall samplePicks 0).length = 3 := by
  have h := spawn_period_amended 160 160 160 samplePicks 0
  exact ⟨h.1, h.2.1 (by decide), h.2.2⟩
